import Mathlib

/-!
Shallow embedding of the core simulation of Bananhopparen 3000
(src/src/App.tsx): physics integration with gravity and jump impulses,
spawning of falling objects, axis-aligned collision detection, and the
scoring/failure state machine across difficulty tiers.

Positions, velocities, speeds and probabilities are JavaScript numbers in
the source; they are modelled as exact rationals. Counters (score,
banana hits, object ids) are naturals.
-/

namespace Banan

/-- Constant from App.tsx line 30. -/
def GAME_WIDTH : ℚ := 400

/-- Constant from App.tsx line 31. -/
def GAME_HEIGHT : ℚ := 600

/-- Constant from App.tsx line 32. -/
def PLAYER_WIDTH : ℚ := 40

/-- Constant from App.tsx line 33. -/
def PLAYER_HEIGHT : ℚ := 40

/-- Constant from App.tsx line 34. -/
def PLAYER_SPEED : ℚ := 5

/-- Constant from App.tsx line 35. -/
def JUMP_FORCE : ℚ := 15

/-- Constant from App.tsx line 36, the literal 0.8. -/
def GRAVITY : ℚ := 8/10

/-- Constant from App.tsx line 37. -/
def GROUND_Y : ℚ := GAME_HEIGHT - 100

/-- Constant from App.tsx line 38. -/
def OBJECT_WIDTH : ℚ := 30

/-- Constant from App.tsx line 39. -/
def OBJECT_HEIGHT : ℚ := 30

/-- Object kind of App.tsx line 10: banana is the hazard, candy the pickup. -/
inductive ObjType where
  | banana
  | candy
deriving DecidableEq, Repr

/-- The GameObject interface of App.tsx lines 4-11. -/
structure GameObject where
  id : ℕ
  x : ℚ
  y : ℚ
  width : ℚ
  height : ℚ
  type : ObjType
deriving DecidableEq, Repr

/-- The Player interface of App.tsx lines 13-19. -/
structure Player where
  x : ℚ
  y : ℚ
  velocityY : ℚ
  isJumping : Bool
  canDoubleJump : Bool
deriving DecidableEq, Repr

/-- The Difficulty union of App.tsx line 21. -/
inductive Difficulty where
  | easy
  | medium
  | hard
  | extreme
  | nightmare
deriving DecidableEq, Repr

/-- The DifficultySettings interface of App.tsx lines 23-28. -/
structure DifficultySettings where
  scrollSpeed : ℚ
  spawnInterval : ℕ
  bananaChance : ℚ
  maxBananaHits : ℕ
deriving DecidableEq, Repr

/-- The DIFFICULTY_SETTINGS table of App.tsx lines 41-72. -/
def DIFFICULTY_SETTINGS : Difficulty → DifficultySettings
  | .easy => { scrollSpeed := 2, spawnInterval := 1500, bananaChance := 3/10, maxBananaHits := 5 }
  | .medium => { scrollSpeed := 3, spawnInterval := 1000, bananaChance := 4/10, maxBananaHits := 4 }
  | .hard => { scrollSpeed := 4, spawnInterval := 800, bananaChance := 5/10, maxBananaHits := 3 }
  | .extreme => { scrollSpeed := 11/2, spawnInterval := 600, bananaChance := 6/10, maxBananaHits := 2 }
  | .nightmare => { scrollSpeed := 7, spawnInterval := 400, bananaChance := 7/10, maxBananaHits := 1 }

/-- The four UI states of App.tsx line 75, corresponding to the NotStarted,
SelectingDifficulty, Playing and GameOver session states of the spec. -/
inductive GameState where
  | start
  | difficulty
  | playing
  | gameover
deriving DecidableEq, Repr

/-- Initial player of App.tsx lines 79-85, also restored by selectDifficulty. -/
def initialPlayer : Player :=
  { x := GAME_WIDTH / 2 - PLAYER_WIDTH / 2
    y := GROUND_Y
    velocityY := 0
    isJumping := false
    canDoubleJump := false }

/-- Held arrow-key state of App.tsx line 87. -/
structure Keys where
  left : Bool
  right : Bool
deriving DecidableEq, Repr

/-- The checkCollision function of App.tsx lines 128-135: axis-aligned
bounding box overlap between a falling object and the player. -/
def checkCollision (obj : GameObject) (p : Player) : Bool :=
  decide (p.x < obj.x + obj.width) && decide (obj.x < p.x + PLAYER_WIDTH) &&
  decide (p.y < obj.y + obj.height) && decide (obj.y < p.y + PLAYER_HEIGHT)

/-- The Space branch of handleKeyDown while playing (App.tsx lines 141-160):
first jump from the ground, else double jump in the air, else no effect. -/
def jumpStep (p : Player) : Player :=
  if !p.isJumping then
    { p with velocityY := -JUMP_FORCE, isJumping := true, canDoubleJump := true }
  else if p.canDoubleJump then
    { p with velocityY := -JUMP_FORCE, canDoubleJump := false }
  else p

/-- Left move of gameLoop (App.tsx lines 198-200): applied when the left
key is held and x is above 0. -/
def horizLeft (left : Bool) (x : ℚ) : ℚ :=
  if left && decide (0 < x) then x - PLAYER_SPEED else x

/-- Right move of gameLoop (App.tsx lines 201-203): applied when the right
key is held and x is below GAME_WIDTH - PLAYER_WIDTH. -/
def horizRight (right : Bool) (x : ℚ) : ℚ :=
  if right && decide (x < GAME_WIDTH - PLAYER_WIDTH) then x + PLAYER_SPEED else x

/-- Horizontal movement of gameLoop (App.tsx lines 197-203): the left move
is applied first, then the right move sees the updated x. -/
def horizStep (keys : Keys) (x : ℚ) : ℚ :=
  horizRight keys.right (horizLeft keys.left x)

/-- One gameLoop update of the player (App.tsx lines 194-218): horizontal
movement, gravity integration, then the ground clamp which on y at or past
GROUND_Y resets y, velocity and both jump flags. -/
def tickPlayer (keys : Keys) (p : Player) : Player :=
  if GROUND_Y ≤ p.y + (p.velocityY + GRAVITY) then
    { x := horizStep keys p.x
      y := GROUND_Y
      velocityY := 0
      isJumping := false
      canDoubleJump := false }
  else
    { x := horizStep keys p.x
      y := p.y + (p.velocityY + GRAVITY)
      velocityY := p.velocityY + GRAVITY
      isJumping := p.isJumping
      canDoubleJump := p.canDoubleJump }

/-- The movedObj of App.tsx line 225: scroll an object by the tier scroll
speed, decreasing y. -/
def moveObj (cfg : DifficultySettings) (obj : GameObject) : GameObject :=
  { obj with y := obj.y - cfg.scrollSpeed }

/-- Accumulator of one setObjects pass of gameLoop (App.tsx lines 220-252):
objects kept so far, plus the batched setScore, setBananaHits and
setGameState effects. -/
structure TickAcc where
  kept : List GameObject
  score : ℕ
  hits : ℕ
  gameOver : Bool
deriving DecidableEq, Repr

/-- Body of the forEach loop over prevObjects (App.tsx lines 224-249):
scroll the object; when it is off screen (y at or below -OBJECT_HEIGHT)
drop it with no effect; else on overlap with the player consume it (banana
increments the hit counter and triggers game over once maxBananaHits is
reached, candy adds 10 to the score); otherwise keep the moved object. -/
def processObject (cfg : DifficultySettings) (p : Player) (acc : TickAcc)
    (obj : GameObject) : TickAcc :=
  if (moveObj cfg obj).y ≤ -OBJECT_HEIGHT then acc
  else if checkCollision (moveObj cfg obj) p then
    match (moveObj cfg obj).type with
    | .banana =>
        { acc with
            hits := acc.hits + 1
            gameOver := acc.gameOver || decide (cfg.maxBananaHits ≤ acc.hits + 1) }
    | .candy => { acc with score := acc.score + 10 }
  else { acc with kept := acc.kept ++ [moveObj cfg obj] }

/-- The whole setObjects pass over the live collection for one tick. -/
def tickObjects (cfg : DifficultySettings) (p : Player) (objs : List GameObject)
    (score hits : ℕ) (gameOver : Bool) : TickAcc :=
  objs.foldl (processObject cfg p) { kept := [], score := score, hits := hits, gameOver := gameOver }

/-- Whether an object is dropped as off screen this tick (App.tsx line 228). -/
def offScreen (cfg : DifficultySettings) (obj : GameObject) : Bool :=
  decide ((moveObj cfg obj).y ≤ -OBJECT_HEIGHT)

/-- Whether the object is still on screen after scrolling and overlaps the
player. Scrolling does not change the object kind, so the kind tests below
read it off the unscrolled object. -/
def overlapHit (cfg : DifficultySettings) (p : Player) (obj : GameObject) : Bool :=
  !offScreen cfg obj && checkCollision (moveObj cfg obj) p

/-- An on-screen hazard (banana) overlap. -/
def isBananaHit (cfg : DifficultySettings) (p : Player) (obj : GameObject) : Bool :=
  overlapHit cfg p obj && decide (obj.type = ObjType.banana)

/-- An on-screen pickup (candy) overlap. -/
def isCandyHit (cfg : DifficultySettings) (p : Player) (obj : GameObject) : Bool :=
  overlapHit cfg p obj && decide (obj.type = ObjType.candy)

/-- Whether the object is neither off screen nor consumed, so it is kept. -/
def survives (cfg : DifficultySettings) (p : Player) (obj : GameObject) : Bool :=
  !offScreen cfg obj && !checkCollision (moveObj cfg obj) p

/-- Number of hazard overlaps among the objects of one tick. -/
def bananaHitCount (cfg : DifficultySettings) (p : Player) (objs : List GameObject) : ℕ :=
  objs.countP (isBananaHit cfg p)

/-- Number of pickup overlaps among the objects of one tick. -/
def candyHitCount (cfg : DifficultySettings) (p : Player) (objs : List GameObject) : ℕ :=
  objs.countP (isCandyHit cfg p)

/-- Kind selection of spawnObject (App.tsx line 116): a uniform draw above
bananaChance gives candy, otherwise banana. -/
def spawnType (bananaChance r : ℚ) : ObjType :=
  if bananaChance < r then .candy else .banana

/-- The spawnObject function of App.tsx lines 115-126 with the two
Math.random draws made explicit: kind from the first draw, x from the
second draw scaled to GAME_WIDTH - OBJECT_WIDTH, y at the bottom edge
GAME_HEIGHT. -/
def spawnObject (cfg : DifficultySettings) (idCounter : ℕ) (r1 r2 : ℚ) : GameObject :=
  { id := idCounter
    x := r2 * (GAME_WIDTH - OBJECT_WIDTH)
    y := GAME_HEIGHT
    width := OBJECT_WIDTH
    height := OBJECT_HEIGHT
    type := spawnType cfg.bananaChance r1 }

/-- Full session state of the App component: the React state variables
gameState, difficulty, score, bananaHits, player, objects, keys, plus the
objectIdCounter ref. -/
structure Session where
  gameState : GameState
  difficulty : Difficulty
  score : ℕ
  bananaHits : ℕ
  player : Player
  objects : List GameObject
  keys : Keys
  idCounter : ℕ
deriving DecidableEq, Repr

/-- The selectDifficulty function of App.tsx lines 95-109: enter Playing
with the chosen tier and reset score, hits, player, objects and the id
counter. -/
def resetSession (s : Session) (d : Difficulty) : Session :=
  { s with
      difficulty := d
      gameState := .playing
      score := 0
      bananaHits := 0
      player := initialPlayer
      objects := []
      idCounter := 0 }

/-- Inbound intents of the presentation layer (spec section 6): the
keyboard events handled by the window listeners, and the button clicks
each screen renders. -/
inductive Intent where
  | requestJump
  | setLeft (down : Bool)
  | setRight (down : Bool)
  | clickStart
  | chooseTier (d : Difficulty)
  | clickBack
deriving DecidableEq, Repr

/-- Dispatch of one inbound intent. Keyboard events reach the window-level
listeners in every state: Space is guarded by the playing check of App.tsx
line 139 and the arrow keys update keys unconditionally (lines 162-163 and
167-168). The click intents carry the guard of the screen that renders
their button: startGame on the start and game-over screens, and
selectDifficulty and the back button only on the difficulty screen — a
click intent in any other state never reaches a handler and leaves the
session as it is. -/
def handleIntent (i : Intent) (s : Session) : Session :=
  match i with
  | .requestJump =>
      if s.gameState = .playing then { s with player := jumpStep s.player } else s
  | .setLeft b => { s with keys := { s.keys with left := b } }
  | .setRight b => { s with keys := { s.keys with right := b } }
  | .clickStart =>
      if s.gameState = .start ∨ s.gameState = .gameover then
        { s with gameState := .difficulty }
      else s
  | .chooseTier d => if s.gameState = .difficulty then resetSession s d else s
  | .clickBack => if s.gameState = .difficulty then { s with gameState := .start } else s

/-- The states in which each intent is applicable per the state machine of
the spec (sections 4.4 and 6): jumping and steering act while Playing,
clickStart starts from NotStarted or restarts from GameOver, and tier
choice and back belong to the difficulty screen. -/
def applicable : Intent → GameState → Bool
  | .requestJump, gs => decide (gs = GameState.playing)
  | .setLeft _, gs => decide (gs = GameState.playing)
  | .setRight _, gs => decide (gs = GameState.playing)
  | .clickStart, gs => decide (gs = GameState.start) || decide (gs = GameState.gameover)
  | .chooseTier _, gs => decide (gs = GameState.difficulty)
  | .clickBack, gs => decide (gs = GameState.difficulty)

/-- Observable snapshot of the core (spec section 6 outbound state):
session tag, tier, score, hazard hit count, player, and the live falling
objects. Held key state is input plumbing, not part of the snapshot. -/
def observable (s : Session) : GameState × Difficulty × ℕ × ℕ × Player × List GameObject :=
  (s.gameState, s.difficulty, s.score, s.bananaHits, s.player, s.objects)

/-- One full gameLoop tick of a session (App.tsx lines 193-255): while
playing, advance the player, then scroll and collide the objects against
the player position the loop read through playerRef (the state committed
before this tick), and transition to game over when the banana limit is
reached. In any other state the loop is not scheduled. -/
def sessionTick (s : Session) : Session :=
  if s.gameState = .playing then
    let cfg := DIFFICULTY_SETTINGS s.difficulty
    let r := tickObjects cfg s.player s.objects s.score s.bananaHits false
    { s with
        player := tickPlayer s.keys s.player
        objects := r.kept
        score := r.score
        bananaHits := r.hits
        gameState := if r.gameOver then .gameover else .playing }
  else s

/-- Ticks with a per-tick horizontal input, folded from a start state. -/
def runTicks (inputs : List Keys) (p : Player) : Player :=
  inputs.foldl (fun q k => tickPlayer k q) p

/-- Player states reachable by the core: the initial state, the reset on
entering Playing (App.tsx lines 100-106), jump handling, and game ticks. -/
inductive ReachablePlayer : Player → Prop where
  | init : ReachablePlayer initialPlayer
  | reset : ∀ p, ReachablePlayer p → ReachablePlayer initialPlayer
  | jump : ∀ p, ReachablePlayer p → ReachablePlayer (jumpStep p)
  | tick : ∀ p k, ReachablePlayer p → ReachablePlayer (tickPlayer k p)

end Banan

namespace Banan

/-- The x component of a tick is the horizontal step, whichever branch the
ground clamp takes. -/
theorem tickPlayer_x (k : Keys) (p : Player) : (tickPlayer k p).x = horizStep k p.x := by
  unfold tickPlayer
  split <;> rfl

/-- C3: after a tick the player y never exceeds GROUND_Y; when the
gravity-integrated y reaches or passes GROUND_Y the tick sets y to
GROUND_Y, velocity to 0 and the jump state to grounded; otherwise y and
velocity are the plain gravity integral and the jump state is untouched,
so the velocity reset happens exactly upon landing. -/
theorem ground_clamp_spec (keys : Keys) (p : Player) :
    (tickPlayer keys p).y ≤ GROUND_Y ∧
    (GROUND_Y ≤ p.y + (p.velocityY + GRAVITY) →
      (tickPlayer keys p).y = GROUND_Y ∧ (tickPlayer keys p).velocityY = 0 ∧
      (tickPlayer keys p).isJumping = false ∧ (tickPlayer keys p).canDoubleJump = false) ∧
    (p.y + (p.velocityY + GRAVITY) < GROUND_Y →
      (tickPlayer keys p).y = p.y + (p.velocityY + GRAVITY) ∧
      (tickPlayer keys p).velocityY = p.velocityY + GRAVITY ∧
      (tickPlayer keys p).isJumping = p.isJumping ∧
      (tickPlayer keys p).canDoubleJump = p.canDoubleJump) := by
  by_cases h : GROUND_Y ≤ p.y + (p.velocityY + GRAVITY)
  · refine ⟨?_, fun _ => ?_, fun hc => absurd h (not_le.mpr hc)⟩ <;> simp [tickPlayer, h]
  · have hlt := not_le.mp h
    refine ⟨?_, fun hc => absurd hc h, fun _ => ?_⟩
    · simp only [tickPlayer, if_neg h]
      exact le_of_lt hlt
    · simp [tickPlayer, h]

/-- Witness for ground_clamp_spec: a tick from the initial grounded state
integrates to y past GROUND_Y and is clamped back with zero velocity. -/
theorem ground_clamp_witness :
    (tickPlayer { left := false, right := false } initialPlayer).y = GROUND_Y ∧
    (tickPlayer { left := false, right := false } initialPlayer).velocityY = 0 ∧
    (tickPlayer { left := false, right := false } initialPlayer).isJumping = false ∧
    (tickPlayer { left := false, right := false } initialPlayer).canDoubleJump = false :=
  (ground_clamp_spec { left := false, right := false } initialPlayer).2.1
    (by norm_num [initialPlayer, GRAVITY, GROUND_Y, GAME_HEIGHT])

/-- C4: a jump request from the ground applies the upward impulse, marks
the player airborne and arms the double jump; a second request while the
double jump is armed reapplies the impulse and exhausts it; any further
request while airborne leaves the state unchanged, so a second jump is
honored exactly once and a third is a no-op. -/
theorem double_jump_spec (p : Player) :
    (p.isJumping = false →
      jumpStep p = { p with velocityY := -JUMP_FORCE, isJumping := true, canDoubleJump := true }) ∧
    (p.isJumping = true → p.canDoubleJump = true →
      jumpStep p = { p with velocityY := -JUMP_FORCE, canDoubleJump := false }) ∧
    (p.isJumping = true → p.canDoubleJump = false → jumpStep p = p) ∧
    (p.isJumping = false →
      jumpStep (jumpStep p) =
        { p with velocityY := -JUMP_FORCE, isJumping := true, canDoubleJump := false }) ∧
    (p.isJumping = false →
      jumpStep (jumpStep (jumpStep p)) = jumpStep (jumpStep p)) := by
  refine ⟨fun h => ?_, fun h1 h2 => ?_, fun h1 h2 => ?_, fun h => ?_, fun h => ?_⟩
  · simp [jumpStep, h]
  · simp [jumpStep, h1, h2]
  · simp [jumpStep, h1, h2]
  · simp [jumpStep, h]
  · simp [jumpStep, h]

/-- Witness for double_jump_spec: jumping from the initial grounded player
sets the impulse, the airborne flag and the armed double jump. -/
theorem double_jump_witness :
    jumpStep initialPlayer =
      { initialPlayer with velocityY := -JUMP_FORCE, isJumping := true, canDoubleJump := true } :=
  (double_jump_spec initialPlayer).1 rfl

/-- C5: an object whose scrolled y is at or below -OBJECT_HEIGHT is
discarded with no effect on the accumulator — no score or hit change and
no retention — even when it also overlaps the player this tick, and such
an object counts as neither a hazard hit nor a pickup hit, so the
off-screen discard and the scoring discard are mutually exclusive. -/
theorem offscreen_discard_spec (cfg : DifficultySettings) (p : Player) (acc : TickAcc)
    (obj : GameObject) (h : (moveObj cfg obj).y ≤ -OBJECT_HEIGHT) :
    processObject cfg p acc obj = acc ∧
    (checkCollision (moveObj cfg obj) p = true → processObject cfg p acc obj = acc) ∧
    isBananaHit cfg p obj = false ∧ isCandyHit cfg p obj = false := by
  refine ⟨?_, fun _ => ?_, ?_, ?_⟩
  · simp [processObject, h]
  · simp [processObject, h]
  · simp [isBananaHit, overlapHit, offScreen, h]
  · simp [isCandyHit, overlapHit, offScreen, h]

/-- Witness for offscreen_discard_spec: on the easy tier an overlapping
banana whose scrolled y lands exactly on -OBJECT_HEIGHT is dropped with
no effect. -/
theorem offscreen_discard_witness :
    processObject (DIFFICULTY_SETTINGS Difficulty.easy) initialPlayer
        { kept := [], score := 0, hits := 0, gameOver := false }
        { id := 0, x := 180, y := -28, width := 30, height := 30, type := ObjType.banana } =
      { kept := [], score := 0, hits := 0, gameOver := false } ∧
    (checkCollision
        (moveObj (DIFFICULTY_SETTINGS Difficulty.easy)
          { id := 0, x := 180, y := -28, width := 30, height := 30, type := ObjType.banana })
        initialPlayer = true →
      processObject (DIFFICULTY_SETTINGS Difficulty.easy) initialPlayer
          { kept := [], score := 0, hits := 0, gameOver := false }
          { id := 0, x := 180, y := -28, width := 30, height := 30, type := ObjType.banana } =
        { kept := [], score := 0, hits := 0, gameOver := false }) ∧
    isBananaHit (DIFFICULTY_SETTINGS Difficulty.easy) initialPlayer
        { id := 0, x := 180, y := -28, width := 30, height := 30, type := ObjType.banana } = false ∧
    isCandyHit (DIFFICULTY_SETTINGS Difficulty.easy) initialPlayer
        { id := 0, x := 180, y := -28, width := 30, height := 30, type := ObjType.banana } = false :=
  offscreen_discard_spec _ _ _ _
    (by norm_num [moveObj, DIFFICULTY_SETTINGS, OBJECT_HEIGHT])

end Banan

namespace Banan

/-- Scrolling preserves the object kind. -/
theorem moveObj_type (cfg : DifficultySettings) (obj : GameObject) :
    (moveObj cfg obj).type = obj.type := rfl

/-- Per-object hit-counter effect: exactly one increment on an on-screen
hazard overlap, none otherwise. -/
theorem processObject_hits (cfg : DifficultySettings) (p : Player) (acc : TickAcc)
    (obj : GameObject) :
    (processObject cfg p acc obj).hits =
      acc.hits + (if isBananaHit cfg p obj then 1 else 0) := by
  by_cases h1 : (moveObj cfg obj).y ≤ -OBJECT_HEIGHT
  · simp [processObject, isBananaHit, overlapHit, offScreen, h1]
  · by_cases h2 : checkCollision (moveObj cfg obj) p
    · cases htype : obj.type <;>
        simp [processObject, isBananaHit, overlapHit, offScreen, moveObj_type, h1, h2, htype]
    · simp [processObject, isBananaHit, overlapHit, offScreen, h1, h2]

/-- Per-object score effect: exactly ten points on an on-screen pickup
overlap, none otherwise. -/
theorem processObject_score (cfg : DifficultySettings) (p : Player) (acc : TickAcc)
    (obj : GameObject) :
    (processObject cfg p acc obj).score =
      acc.score + (if isCandyHit cfg p obj then 10 else 0) := by
  by_cases h1 : (moveObj cfg obj).y ≤ -OBJECT_HEIGHT
  · simp [processObject, isCandyHit, overlapHit, offScreen, h1]
  · by_cases h2 : checkCollision (moveObj cfg obj) p
    · cases htype : obj.type <;>
        simp [processObject, isCandyHit, overlapHit, offScreen, moveObj_type, h1, h2, htype]
    · simp [processObject, isCandyHit, overlapHit, offScreen, h1, h2]

/-- Per-object retention: the moved object is appended exactly when it is
on screen and misses the player. -/
theorem processObject_kept (cfg : DifficultySettings) (p : Player) (acc : TickAcc)
    (obj : GameObject) :
    (processObject cfg p acc obj).kept =
      acc.kept ++ (if survives cfg p obj then [moveObj cfg obj] else []) := by
  by_cases h1 : (moveObj cfg obj).y ≤ -OBJECT_HEIGHT
  · simp [processObject, survives, offScreen, h1]
  · by_cases h2 : checkCollision (moveObj cfg obj) p
    · cases htype : obj.type <;>
        simp [processObject, survives, offScreen, moveObj_type, h1, h2, htype]
    · simp [processObject, survives, offScreen, h1, h2]

/-- Per-object terminal flag: it is raised exactly by a hazard overlap
that brings the counter to the tier limit. -/
theorem processObject_gameOver (cfg : DifficultySettings) (p : Player) (acc : TickAcc)
    (obj : GameObject) :
    (processObject cfg p acc obj).gameOver =
      (acc.gameOver ||
        (isBananaHit cfg p obj && decide (cfg.maxBananaHits ≤ acc.hits + 1))) := by
  by_cases h1 : (moveObj cfg obj).y ≤ -OBJECT_HEIGHT
  · simp [processObject, isBananaHit, overlapHit, offScreen, h1]
  · by_cases h2 : checkCollision (moveObj cfg obj) p
    · cases htype : obj.type <;>
        simp [processObject, isBananaHit, overlapHit, offScreen, moveObj_type, h1, h2, htype]
    · simp [processObject, isBananaHit, overlapHit, offScreen, h1, h2]

/-- Fold form of the hit counter over a whole pass. -/
theorem foldl_hits (cfg : DifficultySettings) (p : Player) (objs : List GameObject) :
    ∀ acc : TickAcc,
      (objs.foldl (processObject cfg p) acc).hits = acc.hits + bananaHitCount cfg p objs := by
  induction objs with
  | nil => intro acc; simp [bananaHitCount]
  | cons obj rest ih =>
      intro acc
      simp only [List.foldl_cons, ih, processObject_hits, bananaHitCount, List.countP_cons]
      by_cases hb : isBananaHit cfg p obj <;> (simp [hb]; try omega)

/-- Fold form of the score over a whole pass. -/
theorem foldl_score (cfg : DifficultySettings) (p : Player) (objs : List GameObject) :
    ∀ acc : TickAcc,
      (objs.foldl (processObject cfg p) acc).score =
        acc.score + 10 * candyHitCount cfg p objs := by
  induction objs with
  | nil => intro acc; simp [candyHitCount]
  | cons obj rest ih =>
      intro acc
      simp only [List.foldl_cons, ih, processObject_score, candyHitCount, List.countP_cons]
      by_cases hc : isCandyHit cfg p obj <;> (simp [hc]; try omega)

/-- Fold form of the retained collection over a whole pass. -/
theorem foldl_kept (cfg : DifficultySettings) (p : Player) (objs : List GameObject) :
    ∀ acc : TickAcc,
      (objs.foldl (processObject cfg p) acc).kept =
        acc.kept ++ (objs.filter (survives cfg p)).map (moveObj cfg) := by
  induction objs with
  | nil => intro acc; simp
  | cons obj rest ih =>
      intro acc
      simp only [List.foldl_cons, ih, List.filter_cons]
      by_cases hs : survives cfg p obj
      · simp [hs, processObject_kept]
      · simp [hs, processObject_kept]

/-- Fold form of the terminal flag over a whole pass: it ends raised iff
it started raised or at least one hazard hit occurred and the counter
reached the tier limit. -/
theorem foldl_gameOver (cfg : DifficultySettings) (p : Player) (objs : List GameObject) :
    ∀ acc : TickAcc,
      (objs.foldl (processObject cfg p) acc).gameOver =
        (acc.gameOver ||
          (decide (0 < bananaHitCount cfg p objs) &&
           decide (cfg.maxBananaHits ≤ acc.hits + bananaHitCount cfg p objs))) := by
  induction objs with
  | nil => intro acc; simp [bananaHitCount]
  | cons obj rest ih =>
      intro acc
      simp only [List.foldl_cons, ih, processObject_gameOver, processObject_hits,
        bananaHitCount, List.countP_cons]
      by_cases hb : isBananaHit cfg p obj
      · simp only [hb, if_pos, Bool.true_and]
        cases g : acc.gameOver
        · simp only [Bool.false_or]
          rw [Bool.eq_iff_iff]
          simp only [Bool.or_eq_true, Bool.and_eq_true, decide_eq_true_eq]
          omega
        · simp
      · simp [hb]

end Banan

namespace Banan

/-- C6: in one tick pass, score grows by exactly 10 per on-screen pickup
overlap and is untouched by hazard overlaps, the hit counter grows by
exactly the number of on-screen hazard overlaps, every overlapping object
is consumed (only the non-overlapping on-screen objects are retained, each
with its scrolled y), and the overlap test is the axis-aligned
bounding-box test of checkCollision. -/
theorem collision_scoring_spec (cfg : DifficultySettings) (p : Player)
    (objs : List GameObject) (score hits : ℕ) (gameOver : Bool) :
    (tickObjects cfg p objs score hits gameOver).score =
      score + 10 * candyHitCount cfg p objs ∧
    (tickObjects cfg p objs score hits gameOver).hits =
      hits + bananaHitCount cfg p objs ∧
    (tickObjects cfg p objs score hits gameOver).kept =
      (objs.filter (survives cfg p)).map (moveObj cfg) ∧
    (∀ obj q, checkCollision obj q = true ↔
      (q.x < obj.x + obj.width ∧ obj.x < q.x + PLAYER_WIDTH ∧
       q.y < obj.y + obj.height ∧ obj.y < q.y + PLAYER_HEIGHT)) := by
  refine ⟨?_, ?_, ?_, ?_⟩
  · simpa using foldl_score cfg p objs { kept := [], score := score, hits := hits, gameOver := gameOver }
  · simpa using foldl_hits cfg p objs { kept := [], score := score, hits := hits, gameOver := gameOver }
  · simpa using foldl_kept cfg p objs { kept := [], score := score, hits := hits, gameOver := gameOver }
  · intro obj q
    simp [checkCollision, and_assoc]

/-- C1: in a Playing session whose hit counter is still below the tier
limit, one tick adds exactly the number of on-screen hazard overlaps to
the counter (so it never decreases, and each hazard overlap adds exactly
one), and the tick ends in GameOver exactly when the new counter has
reached the tier limit — never earlier and never skipped. -/
theorem hazard_hit_gameover_spec (s : Session)
    (hplay : s.gameState = GameState.playing)
    (hlt : s.bananaHits < (DIFFICULTY_SETTINGS s.difficulty).maxBananaHits) :
    (sessionTick s).bananaHits =
      s.bananaHits +
        bananaHitCount (DIFFICULTY_SETTINGS s.difficulty) s.player s.objects ∧
    s.bananaHits ≤ (sessionTick s).bananaHits ∧
    (∀ acc obj, isBananaHit (DIFFICULTY_SETTINGS s.difficulty) s.player obj = true →
      (processObject (DIFFICULTY_SETTINGS s.difficulty) s.player acc obj).hits =
        acc.hits + 1) ∧
    ((sessionTick s).gameState = GameState.gameover ↔
      (DIFFICULTY_SETTINGS s.difficulty).maxBananaHits ≤ (sessionTick s).bananaHits) ∧
    ((sessionTick s).gameState = GameState.playing ↔
      (sessionTick s).bananaHits < (DIFFICULTY_SETTINGS s.difficulty).maxBananaHits) := by
  have hhits : (sessionTick s).bananaHits =
      s.bananaHits + bananaHitCount (DIFFICULTY_SETTINGS s.difficulty) s.player s.objects := by
    simp [sessionTick, hplay, tickObjects, foldl_hits]
  have hover : (sessionTick s).gameState =
      (if (tickObjects (DIFFICULTY_SETTINGS s.difficulty) s.player s.objects s.score
            s.bananaHits false).gameOver then GameState.gameover else GameState.playing) := by
    simp [sessionTick, hplay]
  have hflag : (tickObjects (DIFFICULTY_SETTINGS s.difficulty) s.player s.objects s.score
      s.bananaHits false).gameOver =
      (decide (0 < bananaHitCount (DIFFICULTY_SETTINGS s.difficulty) s.player s.objects) &&
       decide ((DIFFICULTY_SETTINGS s.difficulty).maxBananaHits ≤
         s.bananaHits +
           bananaHitCount (DIFFICULTY_SETTINGS s.difficulty) s.player s.objects)) := by
    simp [tickObjects, foldl_gameOver]
  refine ⟨hhits, by omega, fun acc obj hb => by simp [processObject_hits, hb], ?_, ?_⟩
  · rw [hover, hflag, hhits]
    by_cases hmax : (DIFFICULTY_SETTINGS s.difficulty).maxBananaHits ≤
        s.bananaHits + bananaHitCount (DIFFICULTY_SETTINGS s.difficulty) s.player s.objects
    · have hpos : 0 < bananaHitCount (DIFFICULTY_SETTINGS s.difficulty) s.player s.objects := by
        omega
      simp [hmax, hpos]
    · simp [hmax]
  · rw [hover, hflag, hhits]
    by_cases hmax : (DIFFICULTY_SETTINGS s.difficulty).maxBananaHits ≤
        s.bananaHits + bananaHitCount (DIFFICULTY_SETTINGS s.difficulty) s.player s.objects
    · have hpos : 0 < bananaHitCount (DIFFICULTY_SETTINGS s.difficulty) s.player s.objects := by
        omega
      simp [hmax, hpos]
      try omega
    · simp [hmax]
      try omega

/-- A Playing session on the nightmare tier (limit one hit) with a single
banana that overlaps the player after this tick of scrolling. -/
def nightmareSession : Session :=
  { gameState := .playing
    difficulty := .nightmare
    score := 0
    bananaHits := 0
    player := initialPlayer
    objects := [{ id := 0, x := 180, y := 507, width := 30, height := 30, type := ObjType.banana }]
    keys := { left := false, right := false }
    idCounter := 1 }

/-- Witness for hazard_hit_gameover_spec: the single overlapping banana on
the nightmare tier brings the counter to the limit of one and the session
to game over in the same tick. -/
theorem hazard_hit_gameover_witness :
    (sessionTick nightmareSession).bananaHits = 1 ∧
    (sessionTick nightmareSession).gameState = GameState.gameover := by
  have h := hazard_hit_gameover_spec nightmareSession rfl
    (by norm_num [nightmareSession, DIFFICULTY_SETTINGS])
  have hc : bananaHitCount (DIFFICULTY_SETTINGS nightmareSession.difficulty)
      nightmareSession.player nightmareSession.objects = 1 := by
    norm_num [bananaHitCount, nightmareSession, isBananaHit, overlapHit, offScreen, moveObj,
      checkCollision, DIFFICULTY_SETTINGS, initialPlayer, OBJECT_HEIGHT, PLAYER_WIDTH,
      PLAYER_HEIGHT, GAME_WIDTH, GAME_HEIGHT, GROUND_Y, List.countP_cons, List.countP_nil]
  refine ⟨?_, ?_⟩
  · rw [h.1, hc]
    simp [nightmareSession]
  · exact h.2.2.2.1.mpr (by
      rw [h.1, hc]
      norm_num [nightmareSession, DIFFICULTY_SETTINGS])

end Banan

namespace Banan

/-- Positions reachable by the horizontal step from the centered start are
multiples of PLAYER_SPEED with at most 72 steps of room. -/
def XOk (x : ℚ) : Prop :=
  ∃ n : ℕ, x = 5 * (n : ℚ) ∧ n ≤ 72

/-- The left move preserves the reachable-position form: it only fires
above 0, where at least one step of room is left. -/
theorem horizLeft_ok (b : Bool) (x : ℚ) (h : XOk x) : XOk (horizLeft b x) := by
  obtain ⟨n, rfl, hn⟩ := h
  by_cases hc : (b && decide ((0:ℚ) < 5 * (n : ℚ))) = true
  · have h0 : (0:ℚ) < 5 * (n : ℚ) := of_decide_eq_true ((Bool.and_eq_true _ _).mp hc).2
    have hn1 : 1 ≤ n := by
      rcases Nat.eq_zero_or_pos n with h0n | h0n
      · subst h0n; norm_num at h0
      · exact h0n
    refine ⟨n - 1, ?_, by omega⟩
    rw [horizLeft, if_pos hc, Nat.cast_sub hn1]
    simp only [PLAYER_SPEED]
    push_cast
    ring
  · exact ⟨n, by rw [horizLeft, if_neg hc], hn⟩

/-- The right move preserves the reachable-position form: it only fires
below the right bound, where at least one step of room is left. -/
theorem horizRight_ok (b : Bool) (x : ℚ) (h : XOk x) : XOk (horizRight b x) := by
  obtain ⟨n, rfl, hn⟩ := h
  by_cases hc : (b && decide (5 * (n : ℚ) < GAME_WIDTH - PLAYER_WIDTH)) = true
  · have hlt : 5 * (n : ℚ) < GAME_WIDTH - PLAYER_WIDTH :=
      of_decide_eq_true ((Bool.and_eq_true _ _).mp hc).2
    have h72 : (n : ℚ) < 72 := by
      have hval : GAME_WIDTH - PLAYER_WIDTH = (360:ℚ) := by
        norm_num [GAME_WIDTH, PLAYER_WIDTH]
      rw [hval] at hlt
      linarith
    have hn72 : n < 72 := by exact_mod_cast h72
    refine ⟨n + 1, ?_, by omega⟩
    rw [horizRight, if_pos hc]
    simp only [PLAYER_SPEED]
    push_cast
    ring
  · exact ⟨n, by rw [horizRight, if_neg hc], hn⟩

/-- Reachable-position form gives the claimed bounds. -/
theorem xOk_bounds (x : ℚ) (h : XOk x) : 0 ≤ x ∧ x ≤ GAME_WIDTH - PLAYER_WIDTH := by
  obtain ⟨n, rfl, hn⟩ := h
  constructor
  · positivity
  · have hq : (n : ℚ) ≤ 72 := by exact_mod_cast hn
    norm_num [GAME_WIDTH, PLAYER_WIDTH]
    linarith

/-- Any run of ticks preserves the reachable-position form of x. -/
theorem runTicks_ok (inputs : List Keys) :
    ∀ p : Player, XOk p.x → XOk (runTicks inputs p).x := by
  induction inputs with
  | nil => intro p h; simpa [runTicks] using h
  | cons k rest ih =>
      intro p h
      have hstep : XOk (tickPlayer k p).x := by
        rw [tickPlayer_x, horizStep]
        exact horizRight_ok _ _ (horizLeft_ok _ _ h)
      simpa [runTicks] using ih (tickPlayer k p) hstep

/-- C2: from the initial player, after any sequence of ticks with
arbitrary held-key inputs, the player x lies within
0 to GAME_WIDTH - PLAYER_WIDTH; every prefix of a run is itself a run, so
the bound holds after every tick. -/
theorem horizontal_bounds_spec (inputs : List Keys) :
    0 ≤ (runTicks inputs initialPlayer).x ∧
    (runTicks inputs initialPlayer).x ≤ GAME_WIDTH - PLAYER_WIDTH :=
  xOk_bounds _
    (runTicks_ok inputs initialPlayer
      ⟨36, by norm_num [initialPlayer, GAME_WIDTH, PLAYER_WIDTH], by norm_num⟩)

end Banan

namespace Banan

/-- C10: in every reachable player state an armed double jump implies the
player is airborne; the initial state, the reset on entering Playing, the
jump handler and the per-tick integrator with its ground clamp all
preserve the invariant. -/
theorem double_jump_airborne_invariant :
    ∀ p : Player, ReachablePlayer p → p.canDoubleJump = true → p.isJumping = true := by
  intro p h
  induction h with
  | init => intro hc; simp [initialPlayer] at hc
  | reset q hq ih => intro hc; simp [initialPlayer] at hc
  | jump q hq ih =>
      intro hc
      by_cases hj : q.isJumping
      · by_cases hd : q.canDoubleJump
        · simp [jumpStep, hj, hd]
        · simp only [jumpStep, hj, hd] at hc ⊢
          simp at hc ⊢
          exact ih hc
      · simp [jumpStep, hj]
  | tick q k hq ih =>
      intro hc
      by_cases hg : GROUND_Y ≤ q.y + (q.velocityY + GRAVITY)
      · simp [tickPlayer, hg] at hc
      · simp only [tickPlayer, if_neg hg] at hc ⊢
        exact ih hc

/-- Witness for double_jump_airborne_invariant: after one jump from the
initial state the double jump is armed and the player is indeed airborne. -/
theorem double_jump_airborne_witness :
    (jumpStep initialPlayer).canDoubleJump = true ∧
    (jumpStep initialPlayer).isJumping = true := by
  have h1 : (jumpStep initialPlayer).canDoubleJump = true := by
    simp [jumpStep, initialPlayer]
  exact ⟨h1,
    double_jump_airborne_invariant _ (ReachablePlayer.jump _ ReachablePlayer.init) h1⟩

/-- A session sitting on the start screen. -/
def startSession : Session :=
  { gameState := .start
    difficulty := .medium
    score := 0
    bananaHits := 0
    player := initialPlayer
    objects := []
    keys := { left := false, right := false }
    idCounter := 0 }

/-- C8: an intent delivered in a state where it is not applicable leaves
the observable core state unchanged — a silent no-op, not an error; in
particular a jump request outside Playing leaves the whole session
untouched. -/
theorem out_of_state_intent_spec (s : Session) (i : Intent)
    (h : applicable i s.gameState = false) :
    observable (handleIntent i s) = observable s ∧
    (s.gameState ≠ GameState.playing → handleIntent Intent.requestJump s = s) := by
  constructor
  · cases i with
    | requestJump =>
        have hne : ¬ s.gameState = GameState.playing := by
          simpa [applicable] using h
        simp [handleIntent, hne]
    | setLeft b => simp [handleIntent, observable]
    | setRight b => simp [handleIntent, observable]
    | clickStart =>
        have hne : ¬ (s.gameState = GameState.start ∨ s.gameState = GameState.gameover) := by
          simpa [applicable, not_or] using h
        simp [handleIntent, hne]
    | chooseTier d =>
        have hne : ¬ s.gameState = GameState.difficulty := by
          simpa [applicable] using h
        simp [handleIntent, hne]
    | clickBack =>
        have hne : ¬ s.gameState = GameState.difficulty := by
          simpa [applicable] using h
        simp [handleIntent, hne]
  · intro hnp
    simp [handleIntent, hnp]

/-- Witness for out_of_state_intent_spec: a jump request on the start
screen changes nothing. -/
theorem out_of_state_intent_witness :
    observable (handleIntent Intent.requestJump startSession) = observable startSession ∧
    (startSession.gameState ≠ GameState.playing →
      handleIntent Intent.requestJump startSession = startSession) :=
  out_of_state_intent_spec startSession Intent.requestJump rfl

/-- C9 counterexample: the claim says a simultaneous left-and-right press
yields right-only motion; at the initial position a simultaneous press
leaves x unchanged while right-only moves it by PLAYER_SPEED, so the two
behaviors differ. -/
theorem simultaneous_press_counterexample :
    (tickPlayer { left := true, right := true } initialPlayer).x = initialPlayer.x ∧
    (tickPlayer { left := false, right := true } initialPlayer).x =
      initialPlayer.x + PLAYER_SPEED ∧
    initialPlayer.x + PLAYER_SPEED ≠ initialPlayer.x := by
  refine ⟨?_, ?_, ?_⟩
  · rw [tickPlayer_x]
    norm_num [horizStep, horizLeft, horizRight, initialPlayer, GAME_WIDTH, PLAYER_WIDTH,
      PLAYER_SPEED]
  · rw [tickPlayer_x]
    norm_num [horizStep, horizLeft, horizRight, initialPlayer, GAME_WIDTH, PLAYER_WIDTH,
      PLAYER_SPEED]
  · norm_num [initialPlayer, PLAYER_SPEED, GAME_WIDTH, PLAYER_WIDTH]

/-- C9 amended: the horizontal update is a pure function applying the left
move first and then the right move; within the playable range a
simultaneous press is zero-sum (x is unchanged) whenever x is positive,
and yields right-only motion exactly at the left wall, where the left
move is suppressed. -/
theorem simultaneous_press_spec (p : Player) (h0 : 0 ≤ p.x)
    (h1 : p.x ≤ GAME_WIDTH - PLAYER_WIDTH) :
    (0 < p.x → (tickPlayer { left := true, right := true } p).x = p.x) ∧
    (p.x = 0 → (tickPlayer { left := true, right := true } p).x = p.x + PLAYER_SPEED) := by
  have h1q : p.x ≤ (360:ℚ) := by
    have h360 : GAME_WIDTH - PLAYER_WIDTH = (360:ℚ) := by norm_num [GAME_WIDTH, PLAYER_WIDTH]
    rw [h360] at h1
    exact h1
  constructor
  · intro hpos
    have hcr : p.x - PLAYER_SPEED < GAME_WIDTH - PLAYER_WIDTH := by
      norm_num [PLAYER_SPEED, GAME_WIDTH, PLAYER_WIDTH]
      linarith
    rw [tickPlayer_x]
    simp [horizStep, horizLeft, horizRight, hpos, hcr]
  · intro hx0
    have hnl : ¬ (0:ℚ) < p.x := by rw [hx0]; norm_num
    have hcr : p.x < GAME_WIDTH - PLAYER_WIDTH := by
      rw [hx0]
      norm_num [GAME_WIDTH, PLAYER_WIDTH]
    rw [tickPlayer_x]
    simp [horizStep, horizLeft, horizRight, hnl, hcr]

/-- Witness for simultaneous_press_spec: at the initial position a
simultaneous press leaves x unchanged. -/
theorem simultaneous_press_witness :
    (tickPlayer { left := true, right := true } initialPlayer).x = initialPlayer.x :=
  (simultaneous_press_spec initialPlayer
      (by norm_num [initialPlayer, GAME_WIDTH, PLAYER_WIDTH])
      (by norm_num [initialPlayer, GAME_WIDTH, PLAYER_WIDTH])).1
    (by norm_num [initialPlayer, GAME_WIDTH, PLAYER_WIDTH])

end Banan

namespace Banan

/-- C7: the spawner creates candy exactly when the draw exceeds the tier
bananaChance and a banana otherwise; the draws in the unit interval that
yield a banana form exactly the interval from 0 to bananaChance (so under
the uniform draw the hazard probability equals bananaChance), the banana
outcome is monotone in the chance parameter, the spawned x lies in the
range 0 to GAME_WIDTH - OBJECT_WIDTH, and the spawned y is the bottom edge
GAME_HEIGHT. -/
theorem spawn_spec (cfg : DifficultySettings) (idc : ℕ) (r1 r2 : ℚ)
    (hc0 : 0 ≤ cfg.bananaChance) (hc1 : cfg.bananaChance < 1)
    (hr0 : 0 ≤ r2) (hr1 : r2 < 1) :
    ((spawnObject cfg idc r1 r2).type = ObjType.candy ↔ cfg.bananaChance < r1) ∧
    ((spawnObject cfg idc r1 r2).type = ObjType.banana ↔ r1 ≤ cfg.bananaChance) ∧
    {r : ℚ | r ∈ Set.Ico (0:ℚ) 1 ∧ spawnType cfg.bananaChance r = ObjType.banana} =
      Set.Icc 0 cfg.bananaChance ∧
    (∀ c c2 r : ℚ, c ≤ c2 → spawnType c r = ObjType.banana →
      spawnType c2 r = ObjType.banana) ∧
    0 ≤ (spawnObject cfg idc r1 r2).x ∧
    (spawnObject cfg idc r1 r2).x < GAME_WIDTH - OBJECT_WIDTH ∧
    (spawnObject cfg idc r1 r2).y = GAME_HEIGHT := by
  refine ⟨?_, ?_, ?_, ?_, ?_, ?_, rfl⟩
  · simp only [spawnObject, spawnType]
    by_cases h : cfg.bananaChance < r1 <;> simp [h]
  · simp only [spawnObject, spawnType]
    by_cases h : cfg.bananaChance < r1
    · simp only [if_pos h]
      simp [not_le.mpr h]
    · simp only [if_neg h]
      simp [not_lt.mp h]
  · ext r
    simp only [Set.mem_setOf_eq, Set.mem_Ico, Set.mem_Icc, spawnType]
    constructor
    · rintro ⟨⟨hra, hrb⟩, hb⟩
      refine ⟨hra, ?_⟩
      by_contra hgt
      push_neg at hgt
      simp [if_pos hgt] at hb
    · rintro ⟨hra, hrc⟩
      exact ⟨⟨hra, lt_of_le_of_lt hrc hc1⟩, if_neg (not_lt.mpr hrc)⟩
  · intro c c2 r hcc hb
    simp only [spawnType] at hb ⊢
    by_cases h2 : c2 < r
    · exact absurd hb (by simp [if_pos (lt_of_le_of_lt hcc h2)])
    · exact if_neg h2
  · have hw : (0:ℚ) ≤ GAME_WIDTH - OBJECT_WIDTH := by norm_num [GAME_WIDTH, OBJECT_WIDTH]
    exact mul_nonneg hr0 hw
  · show r2 * (GAME_WIDTH - OBJECT_WIDTH) < GAME_WIDTH - OBJECT_WIDTH
    have h370 : GAME_WIDTH - OBJECT_WIDTH = (370:ℚ) := by norm_num [GAME_WIDTH, OBJECT_WIDTH]
    rw [h370]
    nlinarith

/-- Witness for spawn_spec on the medium tier with both draws one half:
the draw exceeds the tier bananaChance of four tenths, so candy spawns at
x in range and y at the bottom edge. -/
theorem spawn_witness :
    ((spawnObject (DIFFICULTY_SETTINGS Difficulty.medium) 0 (1/2) (1/2)).type = ObjType.candy ↔
      (DIFFICULTY_SETTINGS Difficulty.medium).bananaChance < 1/2) ∧
    ((spawnObject (DIFFICULTY_SETTINGS Difficulty.medium) 0 (1/2) (1/2)).type = ObjType.banana ↔
      (1/2 : ℚ) ≤ (DIFFICULTY_SETTINGS Difficulty.medium).bananaChance) ∧
    {r : ℚ | r ∈ Set.Ico (0:ℚ) 1 ∧
        spawnType (DIFFICULTY_SETTINGS Difficulty.medium).bananaChance r = ObjType.banana} =
      Set.Icc 0 (DIFFICULTY_SETTINGS Difficulty.medium).bananaChance ∧
    (∀ c c2 r : ℚ, c ≤ c2 → spawnType c r = ObjType.banana →
      spawnType c2 r = ObjType.banana) ∧
    0 ≤ (spawnObject (DIFFICULTY_SETTINGS Difficulty.medium) 0 (1/2) (1/2)).x ∧
    (spawnObject (DIFFICULTY_SETTINGS Difficulty.medium) 0 (1/2) (1/2)).x <
      GAME_WIDTH - OBJECT_WIDTH ∧
    (spawnObject (DIFFICULTY_SETTINGS Difficulty.medium) 0 (1/2) (1/2)).y = GAME_HEIGHT :=
  spawn_spec _ 0 (1/2) (1/2) (by norm_num [DIFFICULTY_SETTINGS])
    (by norm_num [DIFFICULTY_SETTINGS]) (by norm_num) (by norm_num)

end Banan
